/-
Verification of the request-shaping and rate-governed batch-dispatch pipeline
of the AutoQuiz extension server.

Shallow embedding of:
- answerShape.js (sanitizeString, coerceArrayStrings, validateAndCoerceAnswer),
  whose full source is reproduced in src/SETUP.md;
- public/dashboard.js (processAnswerByType, normalize/assembly loop of
  getAnswersFromAPI, token window, preflightTokenGate, rate-limit/degrade state
  machine, SessionManager.createSession);
- utils.js (estimatePayloadTokens image component, createOptimizedBatches).

JavaScript dynamic values are modelled by the inductive type JVal.  JS
`undefined` is collapsed into JVal.jnull: in every modelled code path the two
behave identically (both are falsy, neither is a string/array/object that any
branch distinguishes).  JS numbers are modelled as integers (all numbers that
flow through the modelled paths are integral counts or indices).  Times are
naturals in milliseconds; JS float cooldown arithmetic (growth factor 1.5) is
modelled with exact halving on naturals, rounding sub-millisecond fractions
down.
-/
import Mathlib

namespace RepoServer

/-- Model of a JavaScript runtime value, as far as the answer pipeline
inspects values: null/undefined, booleans, integral numbers, strings, arrays
and plain objects (association lists of fields). -/
inductive JVal where
  | jnull
  | jbool (b : Bool)
  | jnum (n : Int)
  | jstr (s : String)
  | jarr (xs : List JVal)
  | jobj (fields : List (String × JVal))
deriving Repr

namespace JVal

/-- JS truthiness: null/undefined, false, 0 and "" are falsy; arrays and
objects are always truthy. -/
def truthy : JVal → Bool
  | jnull => false
  | jbool b => b
  | jnum n => n != 0
  | jstr s => s != ""
  | jarr _ => true
  | jobj _ => true

/-- Array.isArray. -/
def isArray : JVal → Bool
  | jarr _ => true
  | _ => false

/-- typeof v === 'string'. -/
def isString : JVal → Bool
  | jstr _ => true
  | _ => false

/-- JS property read obj.key: a missing field, or a read on a primitive,
yields undefined (modelled jnull).  A read on null/undefined throws; callers
model that case explicitly. -/
def get : JVal → String → JVal
  | jobj fields, key =>
      match fields.find? (fun f => f.1 == key) with
      | some f => f.2
      | none => jnull
  | _, _ => jnull

/-- JS a || b on values: a when truthy, else b. -/
def orElse (a b : JVal) : JVal :=
  if a.truthy then a else b

/-- Test for the null/undefined value. -/
def isNull : JVal → Bool
  | jnull => true
  | _ => false

end JVal

mutual

/-- JS String(v) conversion for the constructors that can reach it. -/
def JVal.toStr : JVal → String
  | JVal.jnull => "null"
  | JVal.jbool b => if b then "true" else "false"
  | JVal.jnum n => toString n
  | JVal.jstr s => s
  | JVal.jarr xs => String.intercalate "," (JVal.toStrList xs)
  | JVal.jobj _ => "[object Object]"

/-- String(v) mapped over an array (elements joined by commas). -/
def JVal.toStrList : List JVal → List String
  | [] => []
  | x :: xs => JVal.toStr x :: JVal.toStrList xs

end

/-! ## answerShape.js (source reproduced in src/SETUP.md) -/

/-- The ASCII whitespace characters matched by the regex class backslash-s
and trimmed by str.trim (exotic Unicode whitespace is not modelled; no
modelled input contains any). -/
def isJsWhitespace (c : Char) : Bool :=
  c = ' ' ∨ c = '\t' ∨ c = '\n' ∨ c = '\r' ∨ c = '\x0b' ∨ c = '\x0c'

/-- str.toLowerCase / type.toLowerCase(), per character. -/
def strToLower (s : String) : String :=
  String.mk (s.data.map Char.toLower)

/-- str.trim(): drop leading and trailing whitespace. -/
def strTrim (s : String) : String :=
  String.mk
    (((s.data.dropWhile isJsWhitespace).reverse.dropWhile isJsWhitespace).reverse)

/-- sanitizeString on an actual string: trim, and truncate with an ellipsis
marker when longer than maxLen (str.trim(); slice(0, maxLen) + ellipsis). -/
def sanitizeStr (s : String) (maxLen : Nat) : String :=
  let trimmed := strTrim s
  if trimmed.length > maxLen then (trimmed.take maxLen).push '…' else trimmed

/-- sanitizeString(str, maxLen): non-strings are returned unchanged. -/
def sanitizeString (v : JVal) (maxLen : Nat) : JVal :=
  match v with
  | JVal.jstr s => JVal.jstr (sanitizeStr s maxLen)
  | other => other

/-- coerceArrayStrings(arr, maxLenEach): map each element through
String(v) then sanitizeString, and drop the resulting empty strings. -/
def coerceArrayStrings (xs : List JVal) (maxLenEach : Nat) : List JVal :=
  (xs.map (fun v => sanitizeStr v.toStr maxLenEach)).filterMap
    (fun s => if s.length > 0 then some (JVal.jstr s) else none)

/-- Question record as submitted to the pipeline.  options / placeholders /
gaps are kept as raw JS values because the source probes them with
Array.isArray before use. -/
structure Question where
  number : Nat
  type : String
  text : String
  options : JVal
  placeholders : JVal
  gaps : JVal
deriving Repr

/-- One entry of a normalized provider response (a batch result):
question_number, the raw answer value, and an optional error message. -/
structure AnswerEntry where
  question_number : Nat
  answer : JVal
  error : Option String
deriving Repr

/-- One entry of the final assembled answer list: the batch-result entry with
its answer replaced by the validated/coerced value and a shape note added. -/
structure AnswerOut where
  question_number : Nat
  answer : JVal
  error : Option String
  shape_note : Option String
deriving Repr

/-- Alias table of validateAndCoerceAnswer (answerShape.js). -/
def validateAliasMap (typeRaw : String) : String :=
  if typeRaw = "checkbox" then "multichoice"
  else if typeRaw = "short_text" then "shortanswer"
  else if typeRaw = "short-answer" then "shortanswer"
  else if typeRaw = "fill_in_the_blanks_from_list" then "ddwtos"
  else if typeRaw = "moodle_dragdrop_text" then "ddwtos"
  else if typeRaw = "dragdrop_text" then "ddwtos"
  else typeRaw

/-- Result record of validateAndCoerceAnswer: { coerced, valid, note }. -/
structure CoerceResult where
  coerced : JVal
  valid : Bool
  note : Option String
deriving Repr

/-- Expected placeholder count probed by the gapselect/ddwtos branch:
question.placeholders.length if that is an array, else question.gaps.length
if that is an array, else null. -/
def expectedPlaceholderCount (question : Question) : Option Nat :=
  match question.placeholders with
  | JVal.jarr ps => some ps.length
  | _ =>
      match question.gaps with
      | JVal.jarr gs => some gs.length
      | _ => none

/-- Cloze branch of validateAndCoerceAnswer, array case: rebuild each element
as a { placeholder_number, answer_text } record. -/
def clozeCoerceItem (idx : Nat) (o : JVal) : JVal :=
  match o with
  | JVal.jstr s =>
      JVal.jobj [("placeholder_number", JVal.jnum (idx + 1)),
                 ("answer_text", JVal.jstr (sanitizeStr s 200))]
  | JVal.jobj fields =>
      JVal.jobj [("placeholder_number",
                    ((JVal.jobj fields).get "placeholder_number").orElse
                      (((JVal.jobj fields).get "number").orElse (JVal.jnum (idx + 1)))),
                 ("answer_text",
                    sanitizeString
                      (((JVal.jobj fields).get "answer_text").orElse
                        (((JVal.jobj fields).get "answer").orElse (JVal.jstr ""))) 200)]
  | JVal.jarr xs =>
      JVal.jobj [("placeholder_number",
                    ((JVal.jarr xs).get "placeholder_number").orElse
                      (((JVal.jarr xs).get "number").orElse (JVal.jnum (idx + 1)))),
                 ("answer_text",
                    sanitizeString
                      (((JVal.jarr xs).get "answer_text").orElse
                        (((JVal.jarr xs).get "answer").orElse (JVal.jstr ""))) 200)]
  | _ => JVal.jobj [("placeholder_number", JVal.jnum (idx + 1)),
                    ("answer_text", JVal.jstr "")]

/-- validateAndCoerceAnswer(question, processedAnswer) from answerShape.js:
per resolved type, enforce the container shape, coercing where the source
does, and null the answer with a note when invalid. -/
def validateAndCoerceAnswer (question : Question) (processedAnswer : JVal) :
    CoerceResult :=
  let typeRaw := strToLower (if question.type = "" then "unknown" else question.type)
  let type := validateAliasMap typeRaw
  let r :=
    if type = "multichoice" then
      let (c0, note0) :=
        match processedAnswer with
        | JVal.jstr s => (JVal.jarr [JVal.jstr (sanitizeStr s 500)],
                          some "coerced_string_to_array")
        | v => (v, none)
      match c0 with
      | JVal.jarr xs => (JVal.jarr (coerceArrayStrings xs 300), true, note0)
      | v => (v, false, note0)
    else if type = "radio" ∨ type = "truefalse" ∨ type = "shortanswer" then
      let (c0, note0) :=
        match processedAnswer with
        | JVal.jarr xs => (xs.headD JVal.jnull, some "took_first_array_item")
        | v => (v, none)
      match c0 with
      | JVal.jstr s => (JVal.jstr (sanitizeStr s 400), true, note0)
      | v => (v, false, note0)
    else if type = "ordering" then
      match processedAnswer with
      | JVal.jarr xs => (JVal.jarr (coerceArrayStrings xs 300), true, none)
      | v => (v, false, none)
    else if type = "matching" ∨ type = "moodle_match" then
      (processedAnswer, processedAnswer.isArray, none)
    else if type = "gapselect" ∨ type = "moodle_gapselect" ∨ type = "ddwtos" then
      match processedAnswer with
      | JVal.jarr xs =>
          match expectedPlaceholderCount question with
          | some e =>
              if e ≠ 0 ∧ xs.length ≠ e then (JVal.jarr xs, false, some "length_mismatch")
              else (JVal.jarr xs, true, none)
          | none => (JVal.jarr xs, true, none)
      | v => (v, false, none)
    else if type = "ddmarker" then
      (processedAnswer, processedAnswer.isArray, none)
    else if type = "cloze" then
      match processedAnswer with
      | JVal.jarr xs =>
          let mapped := JVal.jarr (xs.enum.map (fun p => clozeCoerceItem p.1 p.2))
          let expected :=
            match question.placeholders with
            | JVal.jarr ps => some ps.length
            | _ => none
          match expected with
          | some e =>
              if e ≠ 0 ∧ xs.length ≠ e then (mapped, false, some "length_mismatch")
              else (mapped, true, none)
          | none => (mapped, true, none)
      | JVal.jobj fields =>
          match (JVal.jobj fields).get "answers" with
          | JVal.jarr xs => (JVal.jarr xs, true, none)
          | _ => (JVal.jobj fields, false, none)
      | v => (v, false, none)
    else
      (processedAnswer, true, none)
  if r.2.1 then { coerced := r.1, valid := true, note := r.2.2 }
  else { coerced := JVal.jnull, valid := false,
         note := some (r.2.2.getD "invalid_shape") }

/-! ## processAnswerByType and the answer-assembly loop (public/dashboard.js) -/

/-- Splitter for the ordering string format, mirroring the separator
alternatives of the source (CR-LF or LF, the two-character arrow, the
rightwards-arrow character, comma, semicolon, vertical bar); as in JS
String.split, every boundary yields a piece, including empty ones. -/
def splitOrderingAux : List Char → List Char → List String
  | [], acc => [String.mk acc.reverse]
  | '\r' :: '\n' :: rest, acc => String.mk acc.reverse :: splitOrderingAux rest []
  | '\n' :: rest, acc => String.mk acc.reverse :: splitOrderingAux rest []
  | '-' :: '>' :: rest, acc => String.mk acc.reverse :: splitOrderingAux rest []
  | '→' :: rest, acc => String.mk acc.reverse :: splitOrderingAux rest []
  | ',' :: rest, acc => String.mk acc.reverse :: splitOrderingAux rest []
  | ';' :: rest, acc => String.mk acc.reverse :: splitOrderingAux rest []
  | '|' :: rest, acc => String.mk acc.reverse :: splitOrderingAux rest []
  | c :: rest, acc => splitOrderingAux rest (c :: acc)

/-- raw.split on the ordering separators. -/
def splitOrdering (s : String) : List String :=
  splitOrderingAux s.data []

/-- Ordering fallback of processAnswerByType: the question's own options when
present (a copy), otherwise the empty array.  The source also tags the entry
with fallbackOrderingUsed, a flag no modelled consumer reads. -/
def orderingFallback (question : Question) : JVal :=
  match question.options with
  | JVal.jarr os => if os.length > 0 then JVal.jarr os else JVal.jarr []
  | _ => JVal.jarr []

/-- Ordering branch of processAnswerByType: arrays pass through; an object
with an order array is unwrapped; a string is split on common separators when
that yields more than one part; anything else falls back to the question's
options. -/
def processOrdering (v : JVal) (question : Question) : JVal :=
  match v with
  | JVal.jarr xs => JVal.jarr xs
  | JVal.jobj fields =>
      match (JVal.jobj fields).get "order" with
      | JVal.jarr os => JVal.jarr os
      | _ => orderingFallback question
  | JVal.jstr s =>
      let raw := strTrim s
      let parts := ((splitOrdering raw).map strTrim).filter (fun p => p ≠ "")
      if parts.length > 1 then JVal.jarr (parts.map JVal.jstr)
      else orderingFallback question
  | _ => orderingFallback question

/-- Cloze branch of processAnswerByType: unwrap an answers array, then map an
array of strings or of loosely-shaped objects to placeholder records.  A null
element in the object format makes the property reads throw in the source;
the surrounding catch then returns the original value. -/
def processCloze (v : JVal) : JVal :=
  if ¬ v.truthy then v
  else
    let raw :=
      match v with
      | JVal.jobj fields =>
          match (JVal.jobj fields).get "answers" with
          | JVal.jarr xs => JVal.jarr xs
          | _ => JVal.jobj fields
      | other => other
    match raw with
    | JVal.jarr [] => JVal.jarr []
    | JVal.jarr (x :: xs) =>
        match x with
        | JVal.jstr _ =>
            JVal.jarr (((x :: xs).enum).map (fun p =>
              JVal.jobj [("placeholder_number", JVal.jnum (p.1 + 1)),
                         ("answer_text", p.2)]))
        | JVal.jobj _ | JVal.jarr _ | JVal.jnull =>
            if (x :: xs).any JVal.isNull then v
            else
              JVal.jarr (((x :: xs).enum).map (fun p =>
                JVal.jobj [("placeholder_number",
                              (p.2.get "placeholder_number").orElse
                                ((p.2.get "number").orElse (JVal.jnum (p.1 + 1)))),
                           ("answer_text",
                              (p.2.get "answer_text").orElse
                                ((p.2.get "answer").orElse (JVal.jstr "")))]))
        | _ => v
    | _ => v

/-- Alias table of processAnswerByType (public/dashboard.js). -/
def processTypeAliasMap (t : String) : String :=
  if t = "checkbox" then "multichoice"
  else if t = "short_text" then "shortanswer"
  else if t = "short-answer" then "shortanswer"
  else if t = "radio" then "radio"
  else if t = "fill_in_the_blanks_from_list" then "ddwtos"
  else if t = "moodle_dragdrop_text" then "ddwtos"
  else if t = "dragdrop_text" then "ddwtos"
  else t

/-- supportedTypes list of processAnswerByType. -/
def supportedTypes : List String :=
  ["gapselect", "moodle_gapselect", "ddwtos", "ddmarker", "moodle_dragdrop_marker",
   "multichoice", "moodle_multichoice", "checkbox", "matching", "moodle_match",
   "ordering", "truefalse", "moodle_truefalse", "shortanswer", "short_text",
   "short-answer", "radio", "cloze", "fill_in_the_blanks_from_list",
   "moodle_dragdrop_text", "dragdrop_text"]

/-- processAnswerByType(answer, question) from public/dashboard.js.  For the
array-guarded cases (gapselect, ddmarker, multichoice, matching, ddwtos,
truefalse, shortanswer) the source returns answer.answer when the guard
passes and falls through to the generic final `return answer.answer`
otherwise, so both paths leave the value unchanged. -/
def processAnswerByType (answer : AnswerEntry) (question : Question) : JVal :=
  let questionType := if question.type = "" then "unknown" else question.type
  let originalLower := strToLower questionType
  let normalizedType := processTypeAliasMap originalLower
  if ¬ supportedTypes.contains originalLower then answer.answer
  else if normalizedType = "gapselect" ∨ normalizedType = "moodle_gapselect" then
    answer.answer
  else if normalizedType = "ddmarker" ∨ normalizedType = "moodle_dragdrop_marker" then
    answer.answer
  else if normalizedType = "multichoice" ∨ normalizedType = "moodle_multichoice" then
    answer.answer
  else if normalizedType = "matching" ∨ normalizedType = "moodle_match" then
    answer.answer
  else if normalizedType = "ordering" then processOrdering answer.answer question
  else if normalizedType = "truefalse" ∨ normalizedType = "moodle_truefalse" then
    answer.answer
  else if normalizedType = "shortanswer" then answer.answer
  else if normalizedType = "radio" then
    match answer.answer with
    | JVal.jstr s => JVal.jstr s
    | JVal.jarr (x :: _) => JVal.jstr x.toStr
    | _ => JVal.jnull
  else if normalizedType = "ddwtos" then answer.answer
  else if normalizedType = "cloze" then processCloze answer.answer
  else answer.answer

/-- One turn of the final assembly loop of getAnswersFromAPI: look the
question up in the collected batch results by number; a missing question
yields a null answer with an error message, a found one is processed and
validated, the spread keeping its question_number and error. -/
def assembleOne (batchResults : List AnswerEntry) (question : Question) :
    AnswerOut :=
  match batchResults.find? (fun a => a.question_number == question.number) with
  | none =>
      { question_number := question.number, answer := JVal.jnull,
        error := some "No se recibió respuesta de la IA para esta pregunta",
        shape_note := none }
  | some answer =>
      let processedAnswer := processAnswerByType answer question
      let r := validateAndCoerceAnswer question processedAnswer
      { question_number := answer.question_number, answer := r.coerced,
        error := answer.error, shape_note := r.note }

/-- Final assembly loop of getAnswersFromAPI (public/dashboard.js,
lines 2951 to 2977): one output entry per input question, in input order. -/
def assembleAnswers (questions : List Question)
    (batchResults : List AnswerEntry) : List AnswerOut :=
  questions.map (assembleOne batchResults)

/-! ## Token estimator and batch planner (utils.js) -/

/-- Image component of estimatePayloadTokens: Math.ceil of the encoded base64
length divided by 750. -/
def imageTokens (base64Length : Nat) : Nat :=
  (base64Length + 749) / 750

/-- estimatePayloadTokens with the tiktoken text counts abstracted into the
systemPromptTokens and questionsTokens inputs: text tokens plus the image
component plus the fixed overhead constant 50. -/
def estimatePayloadTokens (systemPromptTokens questionsTokens : Nat)
    (imageBase64Length : Option Nat) : Nat :=
  systemPromptTokens + questionsTokens +
    (match imageBase64Length with
     | some len => imageTokens len
     | none => 0) + 50

/-- Loop body of createOptimizedBatches: close the current batch when it is
at maxBatchSize or the running token estimate plus the next question would
pass 3500 (the hardcoded maxTokens), then push the question into the current
batch; the final partial batch is flushed at the end.  The per-question token
estimate is abstracted into tokEst. -/
def planLoop {α : Type} (tokEst : α → Nat) (maxBatchSize : Nat) :
    List α → List α → Nat → List (List α)
  | [], currentBatch, _ => if currentBatch.isEmpty then [] else [currentBatch]
  | q :: rest, currentBatch, currentBatchTokens =>
      let questionTokens := tokEst q
      if currentBatch.length ≥ maxBatchSize ∨
          currentBatchTokens + questionTokens > 3500 then
        if currentBatch.isEmpty then planLoop tokEst maxBatchSize rest [q] questionTokens
        else currentBatch :: planLoop tokEst maxBatchSize rest [q] questionTokens
      else
        planLoop tokEst maxBatchSize rest (currentBatch ++ [q])
          (currentBatchTokens + questionTokens)

/-- createOptimizedBatches(questions, model, systemPrompt, imageBase64,
maxBatchSize) from utils.js, success path (the catch fallback of fixed-size
chunking is only reached when the estimator throws, which the total model
tokEst cannot). -/
def createOptimizedBatches {α : Type} (tokEst : α → Nat) (questions : List α)
    (maxBatchSize : Nat) : List (List α) :=
  planLoop tokEst maxBatchSize questions [] 0

/-- Initial queue construction of getAnswersFromAPI: question lists of at
most maxBatchSize (3) become one single batch without consulting the
planner; larger lists go through createOptimizedBatches. -/
def buildInitialQueue {α : Type} (tokEst : α → Nat) (questions : List α) :
    List (List α) :=
  let maxBatchSize := 3
  if questions.length ≤ maxBatchSize then [questions]
  else createOptimizedBatches tokEst questions maxBatchSize

/-! ## Token window and budget gate (public/dashboard.js) -/

/-- One entry of the sliding token window: { ts, tokens }. -/
structure TokenEntry where
  ts : Nat
  tokens : Nat
deriving Repr, DecidableEq

/-- TOKEN_BUDGET_CONFIG constants. -/
structure TokenBudgetConfig where
  enabled : Bool
  limitPerMinute : Nat
  nearThreshold : Nat
  preWaitMs : Nat
  postWaitMs : Nat
deriving Repr

/-- The configured token budget: 30000 tokens per minute, near band 2000,
pre-wait 2200 ms, post-wait 2000 ms. -/
def TOKEN_BUDGET_CONFIG : TokenBudgetConfig :=
  { enabled := true, limitPerMinute := 30000, nearThreshold := 2000,
    preWaitMs := 2200, postWaitMs := 2000 }

/-- pruneTokenWindow: shift entries from the front while their timestamp is
strictly before now minus 60000 ms (the window is kept time-ordered because
entries are appended with the current time). -/
def pruneTokenWindow (w : List TokenEntry) (t : Nat) : List TokenEntry :=
  w.dropWhile (fun e => e.ts < t - 60000)

/-- Sum of the token counts in a window. -/
def windowTotal (w : List TokenEntry) : Nat :=
  (w.map (fun e => e.tokens)).sum

/-- tokensUsedLastMinute: prune, sum, and reset the window to empty
returning 0 when the total is an anomalous value above three times the
per-minute limit.  Returns the reading together with the window state after
the call. -/
def tokensUsedLastMinute (w : List TokenEntry) (t : Nat) :
    Nat × List TokenEntry :=
  let pruned := pruneTokenWindow w t
  let total := windowTotal pruned
  if total > TOKEN_BUDGET_CONFIG.limitPerMinute * 3 then (0, [])
  else (total, pruned)

/-- msUntilWindowReset: time until the oldest surviving entry leaves the
60 s window (0 on an empty window; Math.max with 0 is Nat subtraction). -/
def msUntilWindowReset (w : List TokenEntry) (t : Nat) : Nat :=
  match pruneTokenWindow w t with
  | [] => 0
  | oldest :: _ => (oldest.ts + 60000) - t

/-- registerTokens: append { ts: now, tokens: count } and prune (no-op when
the token budget is disabled). -/
def registerTokens (w : List TokenEntry) (t : Nat) (count : Nat) :
    List TokenEntry :=
  if TOKEN_BUDGET_CONFIG.enabled then
    pruneTokenWindow (w ++ [{ ts := t, tokens := count }]) t
  else w

/-- Outcome of the preflight token gate: proceed with no delay, proceed with
the fixed post-call delay scheduled, or sleep for the given number of
milliseconds before the call. -/
inductive GateAction where
  | allow
  | allowPostDelay
  | waitMs (ms : Nat)
deriving Repr, DecidableEq

/-- Decision core of preflightTokenGate, as a function of the usage reading,
the estimated tokens of the outgoing call, and the value of
msUntilWindowReset: below the near band allow; in the band but not exceeding
the limit allow with a post-delay; exceeding the limit wait, for the full
window reset when already at or over the limit and that wait is longer than
the fixed pre-wait, else for the fixed pre-wait. -/
def preflightGateAction (used est msRemain : Nat) : GateAction :=
  let limit := TOKEN_BUDGET_CONFIG.limitPerMinute
  let nearStart := limit - TOKEN_BUDGET_CONFIG.nearThreshold
  if used ≥ nearStart then
    if used + est > limit then
      if used ≥ limit ∧ msRemain > TOKEN_BUDGET_CONFIG.preWaitMs then
        GateAction.waitMs msRemain
      else GateAction.waitMs TOKEN_BUDGET_CONFIG.preWaitMs
    else GateAction.allowPostDelay
  else GateAction.allow

/-- preflightTokenGate(estimatedTokens) over an explicit window state: read
the usage (which may reset a corrupt window), then decide; returns the
action and the window state after the call. -/
def preflightTokenGate (w : List TokenEntry) (t : Nat) (est : Nat) :
    GateAction × List TokenEntry :=
  if ¬ TOKEN_BUDGET_CONFIG.enabled then (GateAction.allow, w)
  else
    let r := tokensUsedLastMinute w t
    (preflightGateAction r.1 est (msUntilWindowReset r.2 t), r.2)

/-! ## Rate limit, cooldown and degrade state machine (public/dashboard.js) -/

/-- RATE_LIMIT_CONFIG constants (the cooldown growth factor 1.5 is applied
in scheduleCooldown as multiplication by 3 over 2). -/
structure RateLimitConfig where
  enableCooldown : Bool
  enablePartitionDegrade : Bool
  degradeWindowMs : Nat
  degradedBatchSize : Nat
  minCooldownMs : Nat
  maxCooldownMs : Nat
deriving Repr

/-- The configured rate-limit behaviour: cooldown and partition degrade on,
60 s degrade window, degraded batch size 1, cooldown clamped to
[1500 ms, 15000 ms]. -/
def RATE_LIMIT_CONFIG : RateLimitConfig :=
  { enableCooldown := true, enablePartitionDegrade := true,
    degradeWindowMs := 60000, degradedBatchSize := 1,
    minCooldownMs := 1500, maxCooldownMs := 15000 }

/-- Successes inside the degrade window needed to recover early. -/
def SUCCESS_TO_RECOVER : Nat := 5

/-- The process-wide mutable rate state: cooldown timestamp, consecutive 429
counter, degrade flags and the sliding token window. -/
structure RateState where
  nextAllowedRequestTime : Nat
  consecutive429 : Nat
  degradeActive : Bool
  degradeUntil : Nat
  successesSinceDegrade : Nat
  tokenWindow : List TokenEntry
deriving Repr, DecidableEq

/-- Value of a digit run. -/
def digitsToNat (ds : List Char) : Nat :=
  ds.foldl (fun acc c => acc * 10 + (c.toNat - Char.toNat '0')) 0

/-- Case-insensitive literal prefix test (the pattern is given lowercase). -/
def startsWithCI : List Char → List Char → Bool
  | [], _ => true
  | _ :: _, [] => false
  | p :: ps, c :: rest => c.toLower == p && startsWithCI ps rest

/-- Scanner for the case-insensitive pattern: the word Requested, one or
more whitespace characters, one or more digits; yields the digits' value of
the leftmost match, scanning one position at a time like the regex engine. -/
def extractRequestedTokensAux : List Char → Option Nat
  | [] => none
  | c :: rest =>
      if startsWithCI "requested".data (c :: rest) then
        let after := (c :: rest).drop 9
        let ws := after.takeWhile isJsWhitespace
        let afterWs := after.dropWhile isJsWhitespace
        let digits := afterWs.takeWhile Char.isDigit
        if ws.length > 0 ∧ digits.length > 0 then some (digitsToNat digits)
        else extractRequestedTokensAux rest
      else extractRequestedTokensAux rest

/-- extractRequestedTokens(text): the number after the word Requested in a
provider 429 error body, when present. -/
def extractRequestedTokens (text : String) : Option Nat :=
  extractRequestedTokensAux text.data

/-- One-position match of the retry-after hint pattern: the literal
try again in, one or more whitespace characters, digits with an optional
fractional part, then the letter s; yields the hinted delay in whole
milliseconds (sub-millisecond digits beyond the third are dropped). -/
def matchRetryAt (cs : List Char) : Option Nat :=
  if startsWithCI "try again in".data cs then
    let after := cs.drop 12
    let ws := after.takeWhile isJsWhitespace
    let afterWs := after.dropWhile isJsWhitespace
    let intDigits := afterWs.takeWhile Char.isDigit
    let afterInt := afterWs.dropWhile Char.isDigit
    if ws.length = 0 ∨ intDigits.length = 0 then none
    else
      match afterInt with
      | '.' :: fracRest =>
          let fracDigits := fracRest.takeWhile Char.isDigit
          let afterFrac := fracRest.dropWhile Char.isDigit
          if fracDigits.length = 0 then none
          else
            match afterFrac with
            | sc :: _ =>
                if sc.toLower = 's' then
                  some (digitsToNat intDigits * 1000 +
                    digitsToNat ((fracDigits.take 3) ++
                      List.replicate (3 - (fracDigits.take 3).length) '0'))
                else none
            | [] => none
      | sc :: _ =>
          if sc.toLower = 's' then some (digitsToNat intDigits * 1000) else none
      | [] => none
  else none

/-- Leftmost match of the retry-after hint, scanning position by
position. -/
def parseRetryMsAux : List Char → Option Nat
  | [] => none
  | c :: rest =>
      match matchRetryAt (c :: rest) with
      | some v => some v
      | none => parseRetryMsAux rest

/-- parseRetrySeconds(message), in milliseconds. -/
def parseRetrySecondsMs (message : String) : Option Nat :=
  parseRetryMsAux message.data

/-- scheduleCooldown(message, aggressive): bump the consecutive-429 counter,
take the provider hint (3 s when absent or zero, zero being falsy in the
source), scale it by (consecutive429 + 1), half again as fast when
aggressive (growth factor 1.5), clamp to the configured band, and move the
shared next-allowed-request time that far into the future. -/
def scheduleCooldown (st : RateState) (t : Nat) (message : String)
    (aggressive : Bool) : RateState :=
  if ¬ RATE_LIMIT_CONFIG.enableCooldown then st
  else
    let suggestedMs :=
      match parseRetrySecondsMs message with
      | some v => if v = 0 then 3000 else v
      | none => 3000
    let consecutive := st.consecutive429 + 1
    let rawDelay :=
      if aggressive then suggestedMs * (consecutive + 1) * 3 / 2
      else suggestedMs * (consecutive + 1)
    let clamped := min RATE_LIMIT_CONFIG.maxCooldownMs
      (max RATE_LIMIT_CONFIG.minCooldownMs rawDelay)
    { st with consecutive429 := consecutive,
              nextAllowedRequestTime := t + clamped }

/-- activateDegrade: mark degrade mode active for the fixed window and zero
the success counter. -/
def activateDegrade (st : RateState) (t : Nat) : RateState :=
  if ¬ RATE_LIMIT_CONFIG.enablePartitionDegrade then st
  else { st with degradeActive := true,
                 degradeUntil := t + RATE_LIMIT_CONFIG.degradeWindowMs,
                 successesSinceDegrade := 0 }

/-- maybeRecoverFromDegrade: leave degrade mode when the window has elapsed
or the success threshold is reached, also resetting the consecutive-429
counter. -/
def maybeRecoverFromDegrade (st : RateState) (t : Nat) : RateState :=
  if ¬ st.degradeActive then st
  else if t ≥ st.degradeUntil ∨ st.successesSinceDegrade ≥ SUCCESS_TO_RECOVER then
    { st with degradeActive := false, successesSinceDegrade := 0,
              consecutive429 := 0 }
  else st

/-- registerBatchSuccess: while degraded count the success and try to
recover; otherwise reset the consecutive-429 streak. -/
def registerBatchSuccess (st : RateState) (t : Nat) : RateState :=
  if st.degradeActive then
    maybeRecoverFromDegrade
      { st with successesSinceDegrade := st.successesSinceDegrade + 1 } t
  else { st with consecutive429 := 0 }

/-- How processBatch leaves a failed attempt: the degraded-questions sentinel
returned to the caller for re-queuing, or an error raised into the retry
loop. -/
inductive BatchOutcome where
  | degradedQuestions
  | raised
deriving Repr, DecidableEq

/-- The 429 branch of processBatch (public/dashboard.js, lines 2500 to 2522):
a first-attempt 429 on a multi-question batch activates degrade, schedules an
aggressive cooldown, registers the Requested token count parsed from the
error body when present and nonzero, and returns the sentinel; any other 429
schedules a plain cooldown, registers nothing, and raises. -/
def on429Response (st : RateState) (t : Nat) (attempt : Nat) (batchLen : Nat)
    (errorText : String) : RateState × BatchOutcome :=
  if attempt = 1 ∧ batchLen > 1 ∧ RATE_LIMIT_CONFIG.enablePartitionDegrade then
    let st1 := activateDegrade st t
    let st2 := scheduleCooldown st1 t errorText true
    let st3 :=
      match extractRequestedTokens errorText with
      | some n =>
          if n ≠ 0 then
            { st2 with tokenWindow := registerTokens st2.tokenWindow t n }
          else st2
      | none => st2
    (st3, BatchOutcome.degradedQuestions)
  else
    (scheduleCooldown st t errorText false, BatchOutcome.raised)

/-- The success tail of processBatch (lines 2565 to 2567):
registerBatchSuccess then registerTokens with the estimated token cost. -/
def onBatchSuccess (st : RateState) (t : Nat) (estimatedTokens : Nat) :
    RateState :=
  let st1 := registerBatchSuccess st t
  { st1 with tokenWindow := registerTokens st1.tokenWindow t estimatedTokens }

/-- Re-queuing of a batch as singleton batches at the front of the pending
queue: the source unshifts [q] per question in iteration order, so the
singletons sit at the front in reversed batch order. -/
def splitBatchFront {α : Type} (batch : List α) (rest : List (List α)) :
    List (List α) :=
  (batch.reverse.map (fun q => [q])) ++ rest

/-- The degrade pre-split check of the dispatch loop (lines 2925 to 2932):
a popped batch larger than the degraded batch size while degrade mode is
active is put back as singleton batches instead of being dispatched. -/
def popPreSplit {α : Type} (degradeActive : Bool) (batch : List α)
    (rest : List (List α)) : Option (List (List α)) :=
  if degradeActive ∧ batch.length > RATE_LIMIT_CONFIG.degradedBatchSize then
    some (splitBatchFront batch rest)
  else none

/-! ## Session manager (public/dashboard.js) -/

/-- Default MAX_CONCURRENT_USERS. -/
def MAX_CONCURRENT_USERS : Nat := 15

/-- Default SESSION_TIMEOUT (one hour in milliseconds). -/
def SESSION_TIMEOUT : Nat := 3600000

/-- A stored session record (the opaque progress payload, logged only, is
not modelled). -/
structure Session where
  id : String
  userId : String
  questions : List Question
  answers : List AnswerOut
  currentIndex : Nat
  createdAt : Nat
  lastAccessAt : Nat
  expiresAt : Nat
  expired : Bool
  questionsTotal : Nat
  questionsProcessed : Nat
deriving Repr

/-- SessionManager.createSession: count the non-expired sessions and throw a
capacity error at or above the configured maximum, leaving the store
untouched; otherwise store the new record keyed by the freshly drawn opaque
id (sessionId abstracts the crypto.randomBytes draw) with expiresAt the
fixed timeout from now (the setTimeout auto-expiry fires at that same
instant).  Returns the store after the call and the result. -/
def createSession (store : List Session) (maxUsers : Nat) (timeout : Nat)
    (sessionId : String) (questions : List Question) (answers : List AnswerOut)
    (userId : Option String) (t : Nat) : List Session × Except String String :=
  let activeSessions := store.filter (fun s => ¬ s.expired)
  if activeSessions.length ≥ maxUsers then
    (store, Except.error
      ("Límite de usuarios concurrentes alcanzado (" ++ toString maxUsers ++ ")"))
  else
    let session : Session :=
      { id := sessionId, userId := userId.getD (sessionId.take 8),
        questions := questions, answers := answers, currentIndex := 0,
        createdAt := t, lastAccessAt := t, expiresAt := t + timeout,
        expired := false, questionsTotal := questions.length,
        questionsProcessed := 0 }
    (store ++ [session], Except.ok sessionId)

/-! ## Lemmas about the batch planner -/

/-- The planner loop emits the accumulated batch followed by a partition of
the remaining questions: its concatenation is the pending batch followed by
the input, in order. -/
lemma planLoop_join {α : Type} (tokEst : α → Nat) (maxBatchSize : Nat) :
    ∀ (qs cur : List α) (tok : Nat),
      (planLoop tokEst maxBatchSize qs cur tok).flatten = cur ++ qs := by
  intro qs
  induction qs with
  | nil =>
      intro cur tok
      by_cases h : cur.isEmpty
      · simp [planLoop, h, List.isEmpty_iff.mp h]
      · simp [planLoop, h]
  | cons q rest ih =>
      intro cur tok
      simp only [planLoop]
      split_ifs with h1 h2
      · simp [ih, List.isEmpty_iff.mp h2]
      · simp [ih]
      · simp [ih]

/-- Every batch the planner loop emits has at most maxBatchSize questions,
provided the pending batch does and the bound is positive. -/
lemma planLoop_length_le {α : Type} (tokEst : α → Nat) (maxBatchSize : Nat)
    (hmax : 1 ≤ maxBatchSize) :
    ∀ (qs cur : List α) (tok : Nat), cur.length ≤ maxBatchSize →
      ∀ b ∈ planLoop tokEst maxBatchSize qs cur tok, b.length ≤ maxBatchSize := by
  intro qs
  induction qs with
  | nil =>
      intro cur tok hcur b hb
      by_cases h : cur.isEmpty
      · simp [planLoop, h] at hb
      · simp [planLoop, h] at hb
        exact hb ▸ hcur
  | cons q rest ih =>
      intro cur tok hcur b hb
      simp only [planLoop] at hb
      split_ifs at hb with h1 h2
      · exact ih [q] (tokEst q) (by simpa using hmax) b hb
      · rcases List.mem_cons.mp hb with rfl | hb2
        · exact hcur
        · exact ih [q] (tokEst q) (by simpa using hmax) b hb2
      · refine ih (cur ++ [q]) (tok + tokEst q) ?_ b hb
        have hlt : cur.length < maxBatchSize := by
          rcases not_or.mp h1 with ⟨ha, _⟩
          omega
        simp only [List.length_append, List.length_singleton]
        omega

/-- Claim C4: for every question list, the batches produced by the planner
concatenate back to the input in order and each hold at most three
questions; with seven questions and no token-ceiling pressure the batch
sizes are [3, 3, 1]. -/
theorem batch_planner_correct {α : Type} (tokEst : α → Nat)
    (questions : List α) (hne : questions ≠ []) :
    (createOptimizedBatches tokEst questions 3).flatten = questions ∧
    (∀ b ∈ createOptimizedBatches tokEst questions 3, b.length ≤ 3) ∧
    (createOptimizedBatches (fun _ : Nat => 100) [1, 2, 3, 4, 5, 6, 7] 3).map
        List.length = [3, 3, 1] := by
  refine ⟨?_, ?_, by rfl⟩
  · simpa using planLoop_join tokEst 3 questions [] 0
  · intro b hb
    exact planLoop_length_le tokEst 3 (by omega) questions [] 0 (by simp) b hb

/-- Witness for claim C4 at a concrete four-question input. -/
theorem batch_planner_correct_witness :
    (createOptimizedBatches (fun _ : Nat => 100) [1, 2, 3, 4] 3).flatten =
      [1, 2, 3, 4] ∧
    (createOptimizedBatches (fun _ : Nat => 100) [1, 2, 3, 4, 5, 6, 7] 3).map
        List.length = [3, 3, 1] :=
  ⟨(batch_planner_correct (fun _ => 100) [1, 2, 3, 4] (by decide)).1,
   (batch_planner_correct (fun _ => 100) [1, 2, 3, 4] (by decide)).2.2⟩

/-- Claim C10: a question list of at most three questions is dispatched as
one single batch whatever its estimated token cost; the planner, had it been
consulted, would have split the same list under a huge estimate. -/
theorem small_input_bypasses_planner {α : Type} (tokEst : α → Nat)
    (questions : List α) (h : questions.length ≤ 3) :
    buildInitialQueue tokEst questions = [questions] ∧
    buildInitialQueue (fun _ : Nat => 1000000) [1, 2, 3] = [[1, 2, 3]] ∧
    createOptimizedBatches (fun _ : Nat => 1000000) [1, 2, 3] 3 =
      [[1], [2], [3]] := by
  refine ⟨?_, by rfl, by rfl⟩
  simp [buildInitialQueue, h]

/-- Witness for claim C10 at a concrete two-question input with an enormous
per-question estimate. -/
theorem small_input_bypasses_planner_witness :
    buildInitialQueue (fun _ : Nat => 999999) [7, 8] = [[7, 8]] :=
  (small_input_bypasses_planner (fun _ => 999999) [7, 8] (by decide)).1

/-- Counterexample to claim C5: the image token component is not a bucketed
step function of the encoded size; an image well under 100 KB costs 134
tokens, not roughly 500, and a large image exceeds the claimed 2000-token
cap. -/
theorem image_tokens_not_bucketed :
    imageTokens 99999 = 134 ∧ imageTokens 99999 < 500 ∧
    imageTokens 3000000 = 4000 ∧ 2000 < imageTokens 3000000 := by decide

/-- Claim C5 amended: the image token component is the exact ceiling of the
encoded base64 length over 750 tokens-per-character: it is at least the
length over 750, it is the least such value, it grows monotonically, and it
is unbounded (it reaches any value at length 750 times that value). -/
theorem image_tokens_linear_ceiling (len other : Nat) (hle : len ≤ other) :
    len ≤ 750 * imageTokens len ∧
    (∀ t : Nat, len ≤ 750 * t → imageTokens len ≤ t) ∧
    imageTokens len ≤ imageTokens other ∧
    imageTokens (750 * (len + 1)) = len + 1 := by
  unfold imageTokens
  refine ⟨by omega, fun t ht => by omega, by omega, by omega⟩

/-- Witness for the amended claim C5 at concrete lengths. -/
theorem image_tokens_linear_ceiling_witness :
    1000 ≤ 750 * imageTokens 1000 ∧ imageTokens 1000 ≤ imageTokens 2000 :=
  ⟨(image_tokens_linear_ceiling 1000 2000 (by decide)).1,
   (image_tokens_linear_ceiling 1000 2000 (by decide)).2.2.1⟩

/-- Counterexample to claim C3: at usage exactly the limit with a 10 s
window-reset wait, the claim predicts the shorter of the reset wait and the
2.2 s pre-wait, that is 2.2 s, but the gate waits the full 10 s. -/
theorem preflight_gate_counterexample :
    preflightGateAction 30000 100 10000 = GateAction.waitMs 10000 ∧
    min 10000 TOKEN_BUDGET_CONFIG.preWaitMs = 2200 ∧
    GateAction.waitMs 10000 ≠ GateAction.waitMs 2200 := by decide

/-- Claim C3 amended: at or over the limit with the estimate exceeding it,
the gate waits for the full window reset when that is longer than the 2.2 s
pre-wait and for the fixed 2.2 s pre-wait otherwise; within the near band
without exceeding, the call proceeds immediately with the post-call delay
scheduled. -/
theorem preflight_gate_decision (used est msRemain : Nat) :
    (TOKEN_BUDGET_CONFIG.limitPerMinute ≤ used →
      TOKEN_BUDGET_CONFIG.limitPerMinute < used + est →
      TOKEN_BUDGET_CONFIG.preWaitMs < msRemain →
      preflightGateAction used est msRemain = GateAction.waitMs msRemain) ∧
    (TOKEN_BUDGET_CONFIG.limitPerMinute ≤ used →
      TOKEN_BUDGET_CONFIG.limitPerMinute < used + est →
      msRemain ≤ TOKEN_BUDGET_CONFIG.preWaitMs →
      preflightGateAction used est msRemain =
        GateAction.waitMs TOKEN_BUDGET_CONFIG.preWaitMs) ∧
    (TOKEN_BUDGET_CONFIG.limitPerMinute - TOKEN_BUDGET_CONFIG.nearThreshold ≤ used →
      used + est ≤ TOKEN_BUDGET_CONFIG.limitPerMinute →
      preflightGateAction used est msRemain = GateAction.allowPostDelay) := by
  simp only [preflightGateAction, TOKEN_BUDGET_CONFIG]
  refine ⟨fun h1 h2 h3 => ?_, fun h1 h2 h3 => ?_, fun h1 h2 => ?_⟩ <;>
    split_ifs <;> first | rfl | omega

/-- Witness for the amended claim C3: both blocked waits and the near-band
post-delay at concrete readings. -/
theorem preflight_gate_decision_witness :
    preflightGateAction 30000 100 10000 = GateAction.waitMs 10000 ∧
    preflightGateAction 30000 100 1000 =
      GateAction.waitMs TOKEN_BUDGET_CONFIG.preWaitMs ∧
    preflightGateAction 28000 100 0 = GateAction.allowPostDelay :=
  ⟨(preflight_gate_decision 30000 100 10000).1 (by decide) (by decide) (by decide),
   (preflight_gate_decision 30000 100 1000).2.1 (by decide) (by decide) (by decide),
   (preflight_gate_decision 28000 100 0).2.2 (by decide) (by decide)⟩

/-- Claim C8: registering t1 at time T and t2 at T plus 61 s leaves a usage
reading at T plus 61 s of exactly t2 (the old entry is pruned); every usage
reading is bounded by three times the per-minute limit; and a window summing
above that bound is treated as corrupt: reset to empty with a zero
reading. -/
theorem token_window_invariant (T t1 t2 : Nat)
    (h : t2 ≤ TOKEN_BUDGET_CONFIG.limitPerMinute * 3) :
    (tokensUsedLastMinute
        (registerTokens (registerTokens [] T t1) (T + 61000) t2)
        (T + 61000)).1 = t2 ∧
    (∀ (w : List TokenEntry) (t : Nat),
        (tokensUsedLastMinute w t).1 ≤ TOKEN_BUDGET_CONFIG.limitPerMinute * 3) ∧
    (∀ (w : List TokenEntry) (t : Nat),
        TOKEN_BUDGET_CONFIG.limitPerMinute * 3 < windowTotal (pruneTokenWindow w t) →
        tokensUsedLastMinute w t = (0, [])) := by
  refine ⟨?_, ?_, ?_⟩
  · have hd1 : registerTokens [] T t1 = [{ ts := T, tokens := t1 }] := by
      simp only [registerTokens, TOKEN_BUDGET_CONFIG, pruneTokenWindow,
        List.nil_append, List.dropWhile_cons, List.dropWhile_nil,
        decide_eq_true_eq, if_true]
      rw [if_neg (by omega)]
    have hd2 : registerTokens [{ ts := T, tokens := t1 }] (T + 61000) t2 =
        [{ ts := T + 61000, tokens := t2 }] := by
      simp only [registerTokens, TOKEN_BUDGET_CONFIG, pruneTokenWindow,
        List.cons_append, List.nil_append, List.dropWhile_cons,
        List.dropWhile_nil, decide_eq_true_eq, if_true]
      rw [if_pos (by omega), if_neg (by omega)]
    have hp : pruneTokenWindow [{ ts := T + 61000, tokens := t2 }] (T + 61000) =
        [{ ts := T + 61000, tokens := t2 }] := by
      simp only [pruneTokenWindow, List.dropWhile_cons, List.dropWhile_nil,
        decide_eq_true_eq]
      rw [if_neg (by omega)]
    rw [hd1, hd2]
    simp only [tokensUsedLastMinute, hp, windowTotal, List.map_cons,
      List.map_nil, List.sum_cons, List.sum_nil, add_zero]
    rw [if_neg (not_lt.mpr h)]
  · intro w t
    simp only [tokensUsedLastMinute]
    split_ifs with hc
    · simp
    · simpa using not_lt.mp hc
  · intro w t hgt
    simp only [tokensUsedLastMinute]
    rw [if_pos hgt]

/-- Witness for claim C8 at concrete times and token counts, including a
corrupt window being reset. -/
theorem token_window_invariant_witness :
    (tokensUsedLastMinute (registerTokens (registerTokens [] 0 500) 61000 700)
        61000).1 = 700 ∧
    (tokensUsedLastMinute [{ ts := 0, tokens := 200000 }] 0).1 ≤
      TOKEN_BUDGET_CONFIG.limitPerMinute * 3 ∧
    tokensUsedLastMinute [{ ts := 0, tokens := 200000 }] 0 = (0, []) :=
  ⟨(token_window_invariant 0 500 700 (by decide)).1,
   (token_window_invariant 0 500 700 (by decide)).2.1
     [{ ts := 0, tokens := 200000 }] 0,
   (token_window_invariant 0 500 700 (by decide)).2.2
     [{ ts := 0, tokens := 200000 }] 0 (by decide)⟩

/-- Counterexample to claim C2: a first-attempt 429 on a three-question
batch whose error body carries a Requested count does register tokens in the
sliding window, although the dispatch failed. -/
theorem degrade_429_registers_tokens :
    ((on429Response
        { nextAllowedRequestTime := 0, consecutive429 := 0,
          degradeActive := false, degradeUntil := 0,
          successesSinceDegrade := 0, tokenWindow := [] }
        1000 1 3
        "Rate limit reached for gpt-4o. Limit 30000, Requested 34012. Please try again in 1.5s.").1.tokenWindow =
      [{ ts := 1000, tokens := 34012 }]) ∧
    [({ ts := 1000, tokens := 34012 } : TokenEntry)] ≠ ([] : List TokenEntry) :=
  ⟨by rfl, by simp⟩

/-- Claim C2 amended: an ordinary 429 leaves the token window untouched, and
a successful dispatch registers its estimated cost; but the first-attempt
multi-question degrade path additionally registers the Requested token count
parsed from the provider error body, when present and nonzero. -/
theorem token_registration_policy (st : RateState)
    (t attempt batchLen est : Nat) (errorText : String) :
    (¬(attempt = 1 ∧ 1 < batchLen) →
      (on429Response st t attempt batchLen errorText).1.tokenWindow =
        st.tokenWindow) ∧
    (attempt = 1 → 1 < batchLen →
      (on429Response st t attempt batchLen errorText).1.tokenWindow =
        (match extractRequestedTokens errorText with
         | some n =>
             if n ≠ 0 then registerTokens st.tokenWindow t n else st.tokenWindow
         | none => st.tokenWindow)) ∧
    (onBatchSuccess st t est).tokenWindow = registerTokens st.tokenWindow t est := by
  refine ⟨?_, ?_, ?_⟩
  · intro h
    simp only [on429Response]
    rw [if_neg (by intro hc; exact h ⟨hc.1, hc.2.1⟩)]
    simp [scheduleCooldown, RATE_LIMIT_CONFIG]
  · intro h1 h2
    simp only [on429Response]
    rw [if_pos ⟨h1, h2, by simp [RATE_LIMIT_CONFIG]⟩]
    cases hE : extractRequestedTokens errorText with
    | none => simp [hE, scheduleCooldown, activateDegrade, RATE_LIMIT_CONFIG]
    | some n =>
        by_cases hn : n = 0
        · simp [hE, hn, scheduleCooldown, activateDegrade, RATE_LIMIT_CONFIG]
        · simp [hE, hn, scheduleCooldown, activateDegrade, RATE_LIMIT_CONFIG]
  · simp only [onBatchSuccess, registerBatchSuccess, maybeRecoverFromDegrade]
    split_ifs <;> rfl

/-- Witness for the amended claim C2: a second-attempt 429 leaves the window
unchanged, a degrade-path 429 registers the parsed count, a success
registers the estimate. -/
theorem token_registration_policy_witness :
    (on429Response
        { nextAllowedRequestTime := 0, consecutive429 := 0,
          degradeActive := false, degradeUntil := 0,
          successesSinceDegrade := 0, tokenWindow := [] }
        1000 2 3 "429 again").1.tokenWindow = [] ∧
    (onBatchSuccess
        { nextAllowedRequestTime := 0, consecutive429 := 0,
          degradeActive := false, degradeUntil := 0,
          successesSinceDegrade := 0, tokenWindow := [] }
        1000 1234).tokenWindow = registerTokens [] 1000 1234 :=
  ⟨(token_registration_policy
      { nextAllowedRequestTime := 0, consecutive429 := 0,
        degradeActive := false, degradeUntil := 0,
        successesSinceDegrade := 0, tokenWindow := [] }
      1000 2 3 1234 "429 again").1 (by omega),
   (token_registration_policy
      { nextAllowedRequestTime := 0, consecutive429 := 0,
        degradeActive := false, degradeUntil := 0,
        successesSinceDegrade := 0, tokenWindow := [] }
      1000 2 3 1234 "429 again").2.2⟩

/-- A success while degraded, before the window elapses and below the
recovery threshold, only increments the success counter. -/
lemma registerBatchSuccess_still_degraded (st : RateState) (t : Nat)
    (ha : st.degradeActive = true)
    (hs : st.successesSinceDegrade + 1 < SUCCESS_TO_RECOVER)
    (ht : t < st.degradeUntil) :
    registerBatchSuccess st t =
      { st with successesSinceDegrade := st.successesSinceDegrade + 1 } := by
  simp only [registerBatchSuccess, maybeRecoverFromDegrade, ha, if_true]
  rw [if_neg (by simp [ha]), if_neg (by simp [SUCCESS_TO_RECOVER] at hs ⊢; omega)]

/-- The success that reaches the recovery threshold while degraded exits
degrade mode and resets both the success and the consecutive-failure
counters, whatever the time. -/
lemma registerBatchSuccess_recovers (st : RateState) (t : Nat)
    (ha : st.degradeActive = true)
    (hs : SUCCESS_TO_RECOVER ≤ st.successesSinceDegrade + 1) :
    registerBatchSuccess st t =
      { st with degradeActive := false, successesSinceDegrade := 0,
                consecutive429 := 0 } := by
  simp only [registerBatchSuccess, maybeRecoverFromDegrade, ha, if_true]
  rw [if_neg (by simp [ha]), if_pos (Or.inr (by simpa using hs))]

/-- Claim C6: a first-attempt 429 on a multi-question batch returns the
degraded-questions sentinel with degrade mode active for the 60 s window;
the sentinel re-queue and the degraded pre-split both put every question of
the batch back as its own singleton batch at the front of the queue; and
five successes while degraded, all before the window elapses, deactivate
degrade mode and reset the consecutive-failure counter. -/
theorem degrade_cycle {α : Type} (st : RateState) (t0 t1 t2 t3 t4 t5 : Nat)
    (errorText : String) (batchLen : Nat) (batch : List α)
    (rest : List (List α)) (hlen : 1 < batchLen)
    (h1 : t1 < t0 + RATE_LIMIT_CONFIG.degradeWindowMs)
    (h2 : t2 < t0 + RATE_LIMIT_CONFIG.degradeWindowMs)
    (h3 : t3 < t0 + RATE_LIMIT_CONFIG.degradeWindowMs)
    (h4 : t4 < t0 + RATE_LIMIT_CONFIG.degradeWindowMs) :
    ((on429Response st t0 1 batchLen errorText).2 =
        BatchOutcome.degradedQuestions ∧
      (on429Response st t0 1 batchLen errorText).1.degradeActive = true ∧
      (on429Response st t0 1 batchLen errorText).1.degradeUntil =
        t0 + RATE_LIMIT_CONFIG.degradeWindowMs) ∧
    ((∀ q ∈ batch, [q] ∈ splitBatchFront batch rest) ∧
      (splitBatchFront batch rest).length = batch.length + rest.length) ∧
    (1 < batch.length →
      popPreSplit true batch rest = some (splitBatchFront batch rest)) ∧
    (registerBatchSuccess (registerBatchSuccess (registerBatchSuccess
        (registerBatchSuccess (activateDegrade st t0) t1) t2) t3) t4 =
      { st with degradeActive := true,
                degradeUntil := t0 + RATE_LIMIT_CONFIG.degradeWindowMs,
                successesSinceDegrade := 4 }) ∧
    (registerBatchSuccess (registerBatchSuccess (registerBatchSuccess
        (registerBatchSuccess (registerBatchSuccess
          (activateDegrade st t0) t1) t2) t3) t4) t5 =
      { st with degradeActive := false,
                degradeUntil := t0 + RATE_LIMIT_CONFIG.degradeWindowMs,
                successesSinceDegrade := 0, consecutive429 := 0 }) := by
  have hd0 : activateDegrade st t0 =
      { st with degradeActive := true,
                degradeUntil := t0 + RATE_LIMIT_CONFIG.degradeWindowMs,
                successesSinceDegrade := 0 } := by
    simp [activateDegrade, RATE_LIMIT_CONFIG]
  have hstep : ∀ n m t : Nat, m = n + 1 → n + 1 < SUCCESS_TO_RECOVER →
      t < t0 + RATE_LIMIT_CONFIG.degradeWindowMs →
      registerBatchSuccess
        { st with degradeActive := true,
                  degradeUntil := t0 + RATE_LIMIT_CONFIG.degradeWindowMs,
                  successesSinceDegrade := n } t =
        { st with degradeActive := true,
                  degradeUntil := t0 + RATE_LIMIT_CONFIG.degradeWindowMs,
                  successesSinceDegrade := m } := by
    intro n m t hm hn ht
    subst hm
    rw [registerBatchSuccess_still_degraded _ t rfl (by simpa using hn)
      (by simpa using ht)]
  have c1 := hstep 0 1 t1 rfl (by simp [SUCCESS_TO_RECOVER]) h1
  have c2 := hstep 1 2 t2 rfl (by simp [SUCCESS_TO_RECOVER]) h2
  have c3 := hstep 2 3 t3 rfl (by simp [SUCCESS_TO_RECOVER]) h3
  have c4 := hstep 3 4 t4 rfl (by simp [SUCCESS_TO_RECOVER]) h4
  have c5 := registerBatchSuccess_recovers
    { st with degradeActive := true,
              degradeUntil := t0 + RATE_LIMIT_CONFIG.degradeWindowMs,
              successesSinceDegrade := 4 } t5 rfl
    (by simp [SUCCESS_TO_RECOVER])
  refine ⟨?_, ⟨?_, ?_⟩, ?_, ?_, ?_⟩
  · cases hE : extractRequestedTokens errorText with
    | none =>
        simp [on429Response, hlen, hE, scheduleCooldown, activateDegrade,
          RATE_LIMIT_CONFIG]
    | some n =>
        by_cases hn : n = 0 <;>
          simp [on429Response, hlen, hE, hn, scheduleCooldown, activateDegrade,
            RATE_LIMIT_CONFIG]
  · intro q hq
    simp only [splitBatchFront, List.mem_append, List.mem_map]
    exact Or.inl ⟨q, by simpa using hq, rfl⟩
  · simp [splitBatchFront]
  · intro hb
    simp [popPreSplit, RATE_LIMIT_CONFIG, hb]
  · rw [hd0, c1, c2, c3, c4]
  · rw [hd0, c1, c2, c3, c4, c5]

/-- Witness for claim C6: the sentinel, the pre-split, and the five-success
early recovery at concrete values. -/
theorem degrade_cycle_witness :
    (on429Response
        { nextAllowedRequestTime := 0, consecutive429 := 0,
          degradeActive := false, degradeUntil := 0,
          successesSinceDegrade := 0, tokenWindow := [] }
        0 1 3 "too many requests").2 = BatchOutcome.degradedQuestions ∧
    popPreSplit true [1, 2] ([] : List (List Nat)) =
      some (splitBatchFront [1, 2] []) ∧
    (registerBatchSuccess (registerBatchSuccess (registerBatchSuccess
        (registerBatchSuccess (registerBatchSuccess
          (activateDegrade
            { nextAllowedRequestTime := 0, consecutive429 := 7,
              degradeActive := false, degradeUntil := 0,
              successesSinceDegrade := 0, tokenWindow := [] } 0) 1) 2) 3) 4)
        5).degradeActive = false := by
  have h := degrade_cycle (α := Nat)
    { nextAllowedRequestTime := 0, consecutive429 := 7,
      degradeActive := false, degradeUntil := 0,
      successesSinceDegrade := 0, tokenWindow := [] }
    0 1 2 3 4 5 "too many requests" 3 [1, 2] [] (by omega)
    (by simp [RATE_LIMIT_CONFIG]) (by simp [RATE_LIMIT_CONFIG])
    (by simp [RATE_LIMIT_CONFIG]) (by simp [RATE_LIMIT_CONFIG])
  refine ⟨h.1.1, h.2.2.1 (by decide), ?_⟩
  rw [h.2.2.2.2]

/-- The assembled entry for a question always carries that question's
number, whether the batch results contain it or not. -/
lemma assembleOne_number (batchResults : List AnswerEntry) (q : Question) :
    (assembleOne batchResults q).question_number = q.number := by
  unfold assembleOne
  cases h : batchResults.find? (fun a => a.question_number == q.number) with
  | none => rfl
  | some a =>
      have hp := List.find?_some h
      simp only [beq_iff_eq] at hp
      simp [hp]

/-- Claim C1: the final answer list has exactly one entry per input
question, in the input order (its question numbers are the input question
numbers); a question matched by no batch-result entry still contributes an
entry with a null answer and an error message. -/
theorem answers_cover_all_questions (questions : List Question)
    (batchResults : List AnswerEntry)
    (huniq : (questions.map Question.number).Nodup) :
    ((assembleAnswers questions batchResults).map AnswerOut.question_number =
      questions.map Question.number) ∧
    (∀ q ∈ questions,
      (∀ a ∈ batchResults, a.question_number ≠ q.number) →
      assembleOne batchResults q =
        { question_number := q.number, answer := JVal.jnull,
          error := some "No se recibió respuesta de la IA para esta pregunta",
          shape_note := none } ∧
      assembleOne batchResults q ∈ assembleAnswers questions batchResults) := by
  refine ⟨?_, ?_⟩
  · simp [assembleAnswers, List.map_map, Function.comp, assembleOne_number]
  · intro q hq hnone
    have hfind : batchResults.find? (fun a => a.question_number == q.number) =
        none := by
      rw [List.find?_eq_none]
      intro a ha
      simpa using hnone a ha
    constructor
    · unfold assembleOne
      rw [hfind]
    · simpa [assembleAnswers] using
        List.mem_map_of_mem (assembleOne batchResults) hq

/-- Witness for claim C1: a one-question input with an empty batch-result
list yields the single null entry with the error message. -/
theorem answers_cover_all_questions_witness :
    ((assembleAnswers
        [{ number := 4, type := "radio", text := "", options := JVal.jnull,
           placeholders := JVal.jnull, gaps := JVal.jnull }] []).map
        AnswerOut.question_number = [4]) ∧
    assembleOne []
        { number := 4, type := "radio", text := "", options := JVal.jnull,
          placeholders := JVal.jnull, gaps := JVal.jnull } =
      { question_number := 4, answer := JVal.jnull,
        error := some "No se recibió respuesta de la IA para esta pregunta",
        shape_note := none } := by
  have h := answers_cover_all_questions
    [{ number := 4, type := "radio", text := "", options := JVal.jnull,
       placeholders := JVal.jnull, gaps := JVal.jnull }] [] (by simp)
  exact ⟨h.1,
    (h.2 { number := 4, type := "radio", text := "", options := JVal.jnull,
           placeholders := JVal.jnull, gaps := JVal.jnull }
      (by simp) (by simp)).1⟩

/-- Counterexample to claim C7: an ordering question whose normalized answer
is null (not an array of strings) does not end up with a null validated
answer; the question's own options are substituted and marked valid. -/
theorem ordering_invalid_not_nulled :
    (validateAndCoerceAnswer
        { number := 1, type := "ordering", text := "",
          options := JVal.jarr [JVal.jstr "A", JVal.jstr "B"],
          placeholders := JVal.jnull, gaps := JVal.jnull }
        (processAnswerByType
          { question_number := 1, answer := JVal.jnull, error := none }
          { number := 1, type := "ordering", text := "",
            options := JVal.jarr [JVal.jstr "A", JVal.jstr "B"],
            placeholders := JVal.jnull, gaps := JVal.jnull })).coerced =
      JVal.jarr [JVal.jstr "A", JVal.jstr "B"] ∧
    (validateAndCoerceAnswer
        { number := 1, type := "ordering", text := "",
          options := JVal.jarr [JVal.jstr "A", JVal.jstr "B"],
          placeholders := JVal.jnull, gaps := JVal.jnull }
        (processAnswerByType
          { question_number := 1, answer := JVal.jnull, error := none }
          { number := 1, type := "ordering", text := "",
            options := JVal.jarr [JVal.jstr "A", JVal.jstr "B"],
            placeholders := JVal.jnull, gaps := JVal.jnull })).valid = true ∧
    JVal.jarr [JVal.jstr "A", JVal.jstr "B"] ≠ JVal.jnull :=
  ⟨rfl, rfl, by simp⟩

/-- The ordering branch of processAnswerByType always produces an array:
arrays and order-wrapped arrays pass, split strings pass, and everything
else falls back to the options array or the empty array. -/
lemma processOrdering_isArray (v : JVal) (q : Question) :
    ∃ xs, processOrdering v q = JVal.jarr xs := by
  have hfb : ∃ xs, orderingFallback q = JVal.jarr xs := by
    unfold orderingFallback
    split
    · split
      · exact ⟨_, rfl⟩
      · exact ⟨[], rfl⟩
    · exact ⟨[], rfl⟩
  obtain ⟨ys, hy⟩ := hfb
  cases v with
  | jnull => exact ⟨ys, by simpa [processOrdering] using hy⟩
  | jbool b => exact ⟨ys, by simpa [processOrdering] using hy⟩
  | jnum n => exact ⟨ys, by simpa [processOrdering] using hy⟩
  | jarr xs => exact ⟨xs, by simp [processOrdering]⟩
  | jstr s =>
      by_cases hp : 1 <
        (List.filter (fun p => !decide (p = ""))
          (List.map strTrim (splitOrdering (strTrim s)))).length
      · exact ⟨(List.filter (fun p => !decide (p = ""))
            (List.map strTrim (splitOrdering (strTrim s)))).map JVal.jstr,
          by simp [processOrdering, hp]⟩
      · exact ⟨ys, by simp [processOrdering, hp, hy]⟩
  | jobj fields =>
      cases h : (JVal.jobj fields).get "order" with
      | jarr os => exact ⟨os, by simp [processOrdering, h]⟩
      | jnull => exact ⟨ys, by simp [processOrdering, h, hy]⟩
      | jbool b => exact ⟨ys, by simp [processOrdering, h, hy]⟩
      | jnum n => exact ⟨ys, by simp [processOrdering, h, hy]⟩
      | jstr s2 => exact ⟨ys, by simp [processOrdering, h, hy]⟩
      | jobj fs => exact ⟨ys, by simp [processOrdering, h, hy]⟩

/-- For an ordering question, processAnswerByType reduces to its ordering
branch. -/
lemma processAnswerByType_ordering (a : AnswerEntry) (q : Question)
    (h : q.type = "ordering") :
    processAnswerByType a q = processOrdering a.answer q := by
  have hl : strToLower "ordering" = "ordering" := by decide
  simp [processAnswerByType, h, hl, processTypeAliasMap, supportedTypes]

/-- For an ordering question, the validator accepts any array, coercing its
elements to bounded strings. -/
lemma validateAndCoerceAnswer_ordering (q : Question) (xs : List JVal)
    (h : q.type = "ordering") :
    validateAndCoerceAnswer q (JVal.jarr xs) =
      { coerced := JVal.jarr (coerceArrayStrings xs 300), valid := true,
        note := none } := by
  have hl : strToLower "ordering" = "ordering" := by decide
  simp [validateAndCoerceAnswer, h, hl, validateAliasMap]

/-- Claim C7 amended: for every ordering question the processed answer is
always an array (non-arrays are repaired or replaced by the question's
options or the empty array before validation), so the validated result is
always valid and never a null answer. -/
theorem ordering_answers_always_arrays (a : AnswerEntry) (q : Question)
    (h : q.type = "ordering") :
    (∃ xs, processAnswerByType a q = JVal.jarr xs) ∧
    (validateAndCoerceAnswer q (processAnswerByType a q)).valid = true ∧
    (validateAndCoerceAnswer q (processAnswerByType a q)).coerced ≠
      JVal.jnull := by
  obtain ⟨xs, hxs⟩ := processOrdering_isArray a.answer q
  have hp := processAnswerByType_ordering a q h
  rw [hp, hxs, validateAndCoerceAnswer_ordering q xs h]
  exact ⟨⟨xs, hp.trans hxs ▸ rfl⟩, rfl, by simp⟩

/-- Witness for the amended claim C7 on a concrete ordering question with a
string answer. -/
theorem ordering_answers_always_arrays_witness :
    (validateAndCoerceAnswer
        { number := 2, type := "ordering", text := "", options := JVal.jnull,
          placeholders := JVal.jnull, gaps := JVal.jnull }
        (processAnswerByType
          { question_number := 2, answer := JVal.jstr "b|a", error := none }
          { number := 2, type := "ordering", text := "", options := JVal.jnull,
            placeholders := JVal.jnull, gaps := JVal.jnull })).valid = true ∧
    (validateAndCoerceAnswer
        { number := 2, type := "ordering", text := "", options := JVal.jnull,
          placeholders := JVal.jnull, gaps := JVal.jnull }
        (processAnswerByType
          { question_number := 2, answer := JVal.jstr "b|a", error := none }
          { number := 2, type := "ordering", text := "", options := JVal.jnull,
            placeholders := JVal.jnull, gaps := JVal.jnull })).coerced ≠
      JVal.jnull :=
  ⟨(ordering_answers_always_arrays
      { question_number := 2, answer := JVal.jstr "b|a", error := none }
      { number := 2, type := "ordering", text := "", options := JVal.jnull,
        placeholders := JVal.jnull, gaps := JVal.jnull } rfl).2.1,
   (ordering_answers_always_arrays
      { question_number := 2, answer := JVal.jstr "b|a", error := none }
      { number := 2, type := "ordering", text := "", options := JVal.jnull,
        placeholders := JVal.jnull, gaps := JVal.jnull } rfl).2.2⟩

/-- Claim C9: createSession raises the capacity error and leaves the store
unchanged when the non-expired session count is at or above the maximum;
otherwise it appends the new session holding the parallel question and
answer lists, expiring the fixed timeout after creation, and returns the
fresh opaque id. -/
theorem session_capacity_gate (store : List Session) (maxUsers timeout : Nat)
    (sessionId : String) (questions : List Question) (answers : List AnswerOut)
    (userId : Option String) (t : Nat) :
    (maxUsers ≤ (store.filter (fun s => ¬ s.expired)).length →
      createSession store maxUsers timeout sessionId questions answers userId t =
        (store, Except.error
          ("Límite de usuarios concurrentes alcanzado (" ++
            toString maxUsers ++ ")"))) ∧
    ((store.filter (fun s => ¬ s.expired)).length < maxUsers →
      createSession store maxUsers timeout sessionId questions answers userId t =
        (store ++ [{ id := sessionId, userId := userId.getD (sessionId.take 8),
                     questions := questions, answers := answers,
                     currentIndex := 0, createdAt := t, lastAccessAt := t,
                     expiresAt := t + timeout, expired := false,
                     questionsTotal := questions.length,
                     questionsProcessed := 0 }], Except.ok sessionId)) := by
  constructor
  · intro h
    simp only [createSession]
    rw [if_pos h]
  · intro h
    simp only [createSession]
    rw [if_neg (by omega)]

/-- Witness for claim C9: capacity 0 rejects on an empty store leaving it
empty; capacity 1 stores the session and returns the id. -/
theorem session_capacity_gate_witness :
    createSession [] 0 3600000 "abc" [] [] none 5 =
      ([], Except.error "Límite de usuarios concurrentes alcanzado (0)") ∧
    createSession [] 1 3600000 "abc" [] [] none 5 =
      ([{ id := "abc", userId := "abc", questions := [], answers := [],
          currentIndex := 0, createdAt := 5, lastAccessAt := 5,
          expiresAt := 3600005, expired := false, questionsTotal := 0,
          questionsProcessed := 0 }], Except.ok "abc") :=
  ⟨(session_capacity_gate [] 0 3600000 "abc" [] [] none 5).1 (by simp),
   (session_capacity_gate [] 1 3600000 "abc" [] [] none 5).2 (by simp)⟩

end RepoServer
